import Mathlib

/-!
Shallow embedding of `pdf_imager.py` (PDFImagerApp).

The code has two halves:
* `_start_conversion` (lines 116-137): validates the input fields, guards on
  the `is_running` flag, creates the output directory and spawns the worker.
  It is modelled as `startConversion`, a function from the widget state and a
  file-system model to the successor state, successor file system and the list
  of UI effects it performs (error dialogs, worker spawn).
* `_convert` (lines 139-164) together with the `root.after`-scheduled handlers
  `_update_progress`, `_conversion_done`, `_conversion_error`: the worker loop.
  The rasterization engine (PyMuPDF) is opaque in the source, so it is modelled
  as an oracle `Engine` giving the outcome of `fitz.open`, of each
  `page.get_pixmap` and of each `pix.save`.  The worker is modelled as
  `convert`, returning the ordered trace of actions it performs: the events
  marshalled to the UI thread plus the `doc.close()` call, the list of render
  calls (with the scale each used) and the list of files written.
-/

/-- Output format, the `self.fmt` combobox: one of `PNG`, `JPEG`. -/
inductive Fmt where
  | PNG
  | JPEG
deriving DecidableEq, Repr

/-- `self.fmt.get().lower()` (line 144): the lower-cased format string. -/
def fmtLower : Fmt → String
  | Fmt.PNG => "png"
  | Fmt.JPEG => "jpeg"

/-- The immutable per-run input: source path, output directory, DPI, format. -/
structure Request where
  pdfPath : String
  outputDir : String
  dpi : ℕ
  fmt : Fmt
deriving DecidableEq, Repr

/-- The events the worker marshals to the observer (UI thread) via
`root.after`: `Started` is the pair of calls at lines 149-150 announcing the
total, `PageDone` is the `_update_progress` call at line 158, `Finished` the
`_conversion_done` call at line 161, `Failed` the `_conversion_error` call at
line 164. -/
inductive Event where
  | Started (total : ℕ)
  | PageDone (index totalSoFar : ℕ) (path : String)
  | Finished (total : ℕ) (outputDir : String)
  | Failed (msg : String)
deriving DecidableEq, Repr

/-- An action of the worker: emitting an event to the observer, or the
`doc.close()` call at line 160. -/
inductive Act where
  | emit (e : Event)
  | close
deriving DecidableEq, Repr

/-- The opaque rasterization engine (PyMuPDF) as an oracle: the outcome of
`fitz.open` (page count, or the exception message), and for each 1-based page
index the exception message of `page.get_pixmap` resp. `pix.save`, `none`
meaning success. -/
structure Engine where
  openRes : Except String ℕ
  renderErr : ℕ → Option String
  saveErr : ℕ → Option String

/-- Result of one `_convert` run: the ordered action trace, the render calls
performed (page index and the scale passed via the matrix), and the image
files successfully written (they stay on disk; nothing deletes them). -/
structure RunState where
  trace : List Act
  renders : List (ℕ × ℚ)
  files : List String
deriving DecidableEq, Repr

/-- The observer-visible part of an action trace: the emitted events in
emission order, with the `doc.close()` call (invisible to the observer)
dropped. -/
def emittedEvents : List Act → List Event
  | [] => []
  | Act.emit e :: rest => e :: emittedEvents rest
  | Act.close :: rest => emittedEvents rest

/-- The events of a run, in emission order. -/
def eventsOf (st : RunState) : List Event := emittedEvents st.trace

/-- Whether `doc.close()` was executed during the run. -/
def RunState.docClosed (st : RunState) : Bool := st.trace.contains Act.close

/-- Python whitespace for `str.strip()`: space, tab, newline, carriage
return, vertical tab, form feed. -/
def isPySpace (c : Char) : Bool :=
  c = ' ' || c = '\t' || c = '\n' || c = '\r' || c.toNat = 11 || c.toNat = 12

/-- Python `str.strip()`: remove leading and trailing whitespace. -/
def pyStrip (s : String) : String :=
  (((s.toList.dropWhile isPySpace).reverse.dropWhile isPySpace).reverse).asString

/-- `os.path.basename`: the part of the path after the last `/`. -/
def pyBasename (p : String) : String :=
  ((p.toList.reverse.takeWhile (fun c => c ≠ '/')).reverse).asString

/-- The root part of `os.path.splitext`: strip the suffix starting at the last
dot, except that leading dots of the name never start an extension. -/
def pySplitextRoot (s : String) : String :=
  let cs := s.toList
  let lead := cs.takeWhile (fun c => c = '.')
  let rest := cs.drop lead.length
  if rest.contains '.' then
    (lead ++ (((rest.reverse.dropWhile (fun c => c ≠ '.')).drop 1).reverse)).asString
  else
    s

/-- Python `f"{i:04d}"`: decimal digits of `i` left-padded with zeros to a
minimum width of 4. -/
def pad4 (i : ℕ) : String :=
  let s := Nat.repr i
  (List.replicate (4 - s.length) '0').asString ++ s

/-- `os.path.join(a, b)` for a relative second component. -/
def pathJoin (a b : String) : String :=
  if a = "" then b
  else if a.toList.getLast? = some '/' then a ++ b
  else a ++ "/" ++ b

/-- The output path built at lines 154-155:
`os.path.join(output_dir, f"{base_name}_page{i:04d}.{file_ext}")`. -/
def outFile (outputDir baseName : String) (i : ℕ) (fileExt : String) : String :=
  pathJoin outputDir (baseName ++ "_page" ++ pad4 i ++ "." ++ fileExt)

/-- The body of the `for i, page in enumerate(doc, start=1)` loop at lines
152-158, run over the given list of page indices.  At each page it records the
render call; a `get_pixmap` exception or a `save` exception aborts the loop
with the exception message, otherwise the written file and the scheduled
`PageDone` event are recorded and the loop continues. -/
def loopPages (eng : Engine) (outputDir baseName fileExt : String) (scale : ℚ) :
    List ℕ → List Act × List (ℕ × ℚ) × List String × Option String
  | [] => ([], [], [], none)
  | i :: rest =>
    match eng.renderErr i with
    | some e => ([], [(i, scale)], [], some e)
    | none =>
      match eng.saveErr i with
      | some e => ([], [(i, scale)], [], some e)
      | none =>
        let f := outFile outputDir baseName i fileExt
        let r := loopPages eng outputDir baseName fileExt scale rest
        (Act.emit (Event.PageDone i i f) :: r.1, (i, scale) :: r.2.1, f :: r.2.2.1, r.2.2.2)

/-- The 1-based page indices the loop iterates over: `1..total`. -/
def idxList (total : ℕ) : List ℕ := (List.range total).map (fun j => j + 1)

/-- `_convert` (lines 139-164).  Inside the `try`: open the document (an open
failure jumps to the `except` with no event but `Failed`); compute the base
name, the lowered format string, the zoom `dpi / 72.0` and the matrix once;
schedule the `Started` announcement; run the page loop; on normal exit close
the document and schedule `Finished`; a loop exception jumps to the `except`,
which schedules `Failed` without closing the document. -/
def convert (eng : Engine) (req : Request) : RunState :=
  match eng.openRes with
  | Except.error e => ⟨[Act.emit (Event.Failed e)], [], []⟩
  | Except.ok total =>
    let baseName := pySplitextRoot (pyBasename req.pdfPath)
    let ext := fmtLower req.fmt
    let zoom : ℚ := (req.dpi : ℚ) / 72
    let fileExt := if ext = "jpeg" then "jpg" else "png"
    let r := loopPages eng req.outputDir baseName fileExt zoom (idxList total)
    ⟨Act.emit (Event.Started total) :: r.1
        ++ (match r.2.2.2 with
            | none => [Act.close, Act.emit (Event.Finished total req.outputDir)]
            | some e => [Act.emit (Event.Failed e)]),
      r.2.1, r.2.2.1⟩

/-- The widget state `_start_conversion` reads and writes: the two path entry
variables, the DPI and format variables, the `is_running` flag and the enabled
state of the run button. -/
structure AppState where
  pdfPath : String
  outputDir : String
  dpi : ℕ
  fmt : Fmt
  isRunning : Bool
  btnEnabled : Bool
deriving DecidableEq, Repr

/-- File-system model: the set of existing regular files (for
`os.path.isfile`) and the set of existing directories (for `os.makedirs`). -/
structure FS where
  regFiles : List String
  dirs : List String
deriving DecidableEq, Repr

/-- Split a character list at each `/`. -/
def splitSlashAux : List Char → List Char → List (List Char)
  | [], acc => [acc.reverse]
  | c :: rest, acc =>
    if c = '/' then acc.reverse :: splitSlashAux rest []
    else splitSlashAux rest (c :: acc)

/-- The `/`-separated components of a path. -/
def splitSlash (p : String) : List String :=
  (splitSlashAux p.toList []).map List.asString

/-- Join path components with `/`. -/
def joinSlash : List String → String
  | [] => ""
  | [x] => x
  | x :: y :: rest => x ++ "/" ++ joinSlash (y :: rest)

/-- The ancestor chain of a path: for `a/b/c` the directories `a`, `a/b`
and `a/b/c` themselves. -/
def ancestorDirs (p : String) : List String :=
  let parts := splitSlash p
  (List.range parts.length).map (fun k => joinSlash (parts.take (k + 1)))

/-- `os.makedirs(p, exist_ok=True)`: the directory and every missing ancestor
now exist. -/
def makedirs (fs : FS) (p : String) : FS :=
  { fs with dirs := fs.dirs ++ ancestorDirs p }

/-- The error dialog shown for an empty or nonexistent source path
(line 121). -/
def srcErrMsg : String := "有効なPDFファイルを選択してください。"

/-- The error dialog shown for an empty output path (line 124). -/
def outErrMsg : String := "出力先フォルダを指定してください。"

/-- Externally visible effects of `_start_conversion`: a
`messagebox.showerror` dialog, or starting the worker thread with the given
`(pdf, out)` arguments. -/
inductive StartEffect where
  | showError (msg : String)
  | spawnWorker (pdf out : String)
deriving DecidableEq, Repr

/-- `_start_conversion` (lines 116-137).  Strip both entry values; reject an
empty or nonexistent source and then an empty output with their respective
error dialogs; return silently when `is_running` is set; otherwise create the
output directory, set the flag, disable the button and start the worker
thread on the stripped paths.  Returns the successor widget state, the
successor file system and the effect list in ocurrence order. -/
def startConversion (st : AppState) (fs : FS) :
    AppState × FS × List StartEffect :=
  let pdf := pyStrip st.pdfPath
  let out := pyStrip st.outputDir
  if pdf = "" ∨ pdf ∉ fs.regFiles then
    (st, fs, [StartEffect.showError srcErrMsg])
  else if out = "" then
    (st, fs, [StartEffect.showError outErrMsg])
  else if st.isRunning then
    (st, fs, [])
  else
    ({ st with isRunning := true, btnEnabled := false },
      makedirs fs out,
      [StartEffect.spawnWorker pdf out])

/-- `_conversion_done` (lines 171-176): the handler delivering the terminal
`Finished` event clears `is_running` and re-enables the button. -/
def conversionDone (st : AppState) : AppState :=
  { st with isRunning := false, btnEnabled := true }

/-- `_conversion_error` (lines 178-183): the handler delivering the terminal
`Failed` event clears `is_running` and re-enables the button. -/
def conversionError (st : AppState) : AppState :=
  { st with isRunning := false, btnEnabled := true }

/-- The extension the code picks per format (`"jpg" if ext == "jpeg" else
"png"`, line 154), as a function of the format. -/
def fmtExt : Fmt → String
  | Fmt.PNG => "png"
  | Fmt.JPEG => "jpg"

/-- The output path the run produces for page `i` of a request. -/
def producedPath (req : Request) (i : ℕ) : String :=
  outFile req.outputDir (pySplitextRoot (pyBasename req.pdfPath)) i (fmtExt req.fmt)

/-- The exception message that aborts the loop at page `k`: the render error
if `get_pixmap` raises, otherwise the save error. -/
def pageFailMsg (eng : Engine) (k : ℕ) : String :=
  match eng.renderErr k with
  | some e => e
  | none => (eng.saveErr k).getD ""

theorem fileExt_eq_fmtExt (f : Fmt) :
    (if fmtLower f = "jpeg" then "jpg" else "png") = fmtExt f := by
  cases f <;> rfl

theorem emittedEvents_nil : emittedEvents [] = [] := rfl

theorem emittedEvents_cons_emit (e : Event) (l : List Act) :
    emittedEvents (Act.emit e :: l) = e :: emittedEvents l := rfl

theorem emittedEvents_cons_close (l : List Act) :
    emittedEvents (Act.close :: l) = emittedEvents l := rfl

theorem emittedEvents_append (l₁ l₂ : List Act) :
    emittedEvents (l₁ ++ l₂) = emittedEvents l₁ ++ emittedEvents l₂ := by
  induction l₁ with
  | nil => rfl
  | cons a rest ih => cases a <;> simp [emittedEvents, ih]

theorem emittedEvents_map_emit (f : ℕ → Event) (l : List ℕ) :
    emittedEvents (l.map fun i => Act.emit (f i)) = l.map f := by
  induction l with
  | nil => rfl
  | cons i rest ih => simp [emittedEvents, ih]

theorem mem_of_mem_emittedEvents (e : Event) (l : List Act)
    (h : e ∈ emittedEvents l) : Act.emit e ∈ l := by
  induction l with
  | nil => simp [emittedEvents] at h
  | cons a rest ih =>
    cases a with
    | emit e2 =>
      rw [emittedEvents] at h
      rcases List.mem_cons.mp h with h1 | h2
      · exact h1 ▸ List.mem_cons_self _ _
      · exact List.mem_cons_of_mem _ (ih h2)
    | close =>
      rw [emittedEvents] at h
      exact List.mem_cons_of_mem _ (ih h)

theorem mem_idxList (i n : ℕ) : i ∈ idxList n ↔ 1 ≤ i ∧ i ≤ n := by
  simp only [idxList, List.mem_map, List.mem_range]
  constructor
  · rintro ⟨j, hj, rfl⟩
    omega
  · intro h
    exact ⟨i - 1, by omega, by omega⟩

theorem idxList_succ (m : ℕ) : idxList (m + 1) = idxList m ++ [m + 1] := by
  simp [idxList, List.range_succ]

theorem idxList_split (k n : ℕ) (h1 : 1 ≤ k) (h2 : k ≤ n) :
    ∃ tail, idxList n = idxList (k - 1) ++ k :: tail := by
  induction n with
  | zero => omega
  | succ m ih =>
    rcases Nat.lt_or_ge m k with hmk | hmk
    · have hk : k = m + 1 := by omega
      subst hk
      exact ⟨[], by simp [idxList_succ]⟩
    · obtain ⟨t, ht⟩ := ih hmk
      exact ⟨t ++ [m + 1], by rw [idxList_succ, ht]; simp⟩

theorem loopPages_ok (eng : Engine) (od bn fe : String) (s : ℚ) (l : List ℕ)
    (h : ∀ i ∈ l, eng.renderErr i = none ∧ eng.saveErr i = none) :
    loopPages eng od bn fe s l =
      (l.map (fun i => Act.emit (Event.PageDone i i (outFile od bn i fe))),
       l.map (fun i => (i, s)),
       l.map (fun i => outFile od bn i fe),
       none) := by
  induction l with
  | nil => rfl
  | cons i rest ih =>
    have hi := h i (List.mem_cons_self _ _)
    have hrest := ih (fun j hj => h j (List.mem_cons_of_mem _ hj))
    simp [loopPages, hi.1, hi.2, hrest]

theorem loopPages_fail (eng : Engine) (od bn fe : String) (s : ℚ)
    (l₁ l₂ : List ℕ) (k : ℕ)
    (h1 : ∀ i ∈ l₁, eng.renderErr i = none ∧ eng.saveErr i = none)
    (hk : (eng.renderErr k).isSome ∨ (eng.saveErr k).isSome) :
    loopPages eng od bn fe s (l₁ ++ k :: l₂) =
      (l₁.map (fun i => Act.emit (Event.PageDone i i (outFile od bn i fe))),
       l₁.map (fun i => (i, s)) ++ [(k, s)],
       l₁.map (fun i => outFile od bn i fe),
       some (pageFailMsg eng k)) := by
  induction l₁ with
  | nil =>
    simp only [List.nil_append, List.map_nil]
    cases hr : eng.renderErr k with
    | some e => simp [loopPages, hr, pageFailMsg]
    | none =>
      cases hs : eng.saveErr k with
      | some e => simp [loopPages, hr, hs, pageFailMsg]
      | none => rw [hr, hs] at hk; simp at hk
  | cons i rest ih =>
    have hi := h1 i (List.mem_cons_self _ _)
    have hrest := ih (fun j hj => h1 j (List.mem_cons_of_mem _ hj))
    simp [loopPages, hi.1, hi.2, hrest]

theorem loopPages_scale (eng : Engine) (od bn fe : String) (s : ℚ)
    (l : List ℕ) (pr : ℕ × ℚ)
    (h : pr ∈ (loopPages eng od bn fe s l).2.1) : pr.2 = s := by
  induction l with
  | nil => simp [loopPages] at h
  | cons i rest ih =>
    rw [loopPages] at h
    cases hr : eng.renderErr i with
    | some e =>
      rw [hr] at h
      simp at h
      rw [h]
    | none =>
      rw [hr] at h
      cases hs : eng.saveErr i with
      | some e =>
        rw [hs] at h
        simp at h
        rw [h]
      | none =>
        rw [hs] at h
        simp at h
        rcases h with h | h
        · rw [h]
        · exact ih h

theorem loopPages_pageDone (eng : Engine) (od bn fe : String) (s : ℚ)
    (l : List ℕ) (i t : ℕ) (p : String)
    (h : Act.emit (Event.PageDone i t p) ∈ (loopPages eng od bn fe s l).1) :
    t = i ∧ p = outFile od bn i fe := by
  induction l with
  | nil => simp [loopPages] at h
  | cons j rest ih =>
    rw [loopPages] at h
    cases hr : eng.renderErr j with
    | some e => rw [hr] at h; simp at h
    | none =>
      rw [hr] at h
      cases hs : eng.saveErr j with
      | some e => rw [hs] at h; simp at h
      | none =>
        rw [hs] at h
        simp only [List.mem_cons] at h
        rcases h with h | h
        · injection h with h2
          injection h2 with ha hb hc
          exact ⟨by omega, by simp_all⟩
        · exact ih h

theorem pad4_min_length (i : ℕ) : 4 ≤ (pad4 i).length := by
  simp only [pad4, String.length_append, List.length_asString, List.length_replicate]
  omega

theorem pad4_exact_length (i : ℕ) (h : i ≤ 9999) : (pad4 i).length = 4 := by
  have hr : (Nat.repr i).length ≤ 4 := Nat.repr_length i 4 (by omega) (by omega)
  simp only [pad4, String.length_append, List.length_asString, List.length_replicate]
  omega

/-- Concrete engine: a two-page document where every page renders and saves
successfully. -/
def engOkW : Engine := ⟨Except.ok 2, fun _ => none, fun _ => none⟩

/-- Concrete request used by several witnesses. -/
def reqW : Request := ⟨"docs/deck.pdf", "out", 72, Fmt.PNG⟩

/-- C1: for a source that opens with `n` pages and whose every page renders
and saves successfully, the run emits exactly one `Started n`, then exactly
`n` `PageDone` events with indices `1..n` in increasing order, each carrying
`totalSoFar = index` and the produced file path, then exactly one
`Finished n outputDir`, and nothing after it. -/
theorem C1_success_event_stream (eng : Engine) (req : Request) (n : ℕ)
    (hopen : eng.openRes = Except.ok n)
    (hok : ∀ i, 1 ≤ i → i ≤ n → eng.renderErr i = none ∧ eng.saveErr i = none) :
    eventsOf (convert eng req) =
      Event.Started n
        :: (idxList n).map (fun i => Event.PageDone i i (producedPath req i))
        ++ [Event.Finished n req.outputDir] := by
  have hl : ∀ i ∈ idxList n, eng.renderErr i = none ∧ eng.saveErr i = none := by
    intro i hi
    have hm := (mem_idxList i n).mp hi
    exact hok i hm.1 hm.2
  simp only [convert, hopen]
  rw [loopPages_ok eng _ _ _ _ _ hl]
  simp [eventsOf, emittedEvents, emittedEvents_append, emittedEvents_map_emit,
    producedPath, fileExt_eq_fmtExt]

/-- C1 witness: the success stream at a concrete two-page document. -/
theorem C1_success_event_stream_witness :
    eventsOf (convert engOkW reqW) =
      [Event.Started 2, Event.PageDone 1 1 "out/deck_page0001.png",
       Event.PageDone 2 2 "out/deck_page0002.png", Event.Finished 2 "out"] := by
  rw [C1_success_event_stream engOkW reqW 2 rfl (fun i h1 h2 => ⟨rfl, rfl⟩)]
  decide

/-- C7: when opening the source fails with message `e`, the run emits the
single event `Failed e` and terminates: no `Started`, no `PageDone`, no
render call and no file written. -/
theorem C7_open_failure (eng : Engine) (req : Request) (e : String)
    (hopen : eng.openRes = Except.error e) :
    convert eng req = ⟨[Act.emit (Event.Failed e)], [], []⟩
    ∧ eventsOf (convert eng req) = [Event.Failed e] := by
  have h1 : convert eng req = ⟨[Act.emit (Event.Failed e)], [], []⟩ := by
    simp [convert, hopen]
  exact ⟨h1, by rw [h1]; rfl⟩

/-- Concrete engine whose open call raises (a corrupt file). -/
def engOpenFailW : Engine :=
  ⟨Except.error "cannot open broken document", fun _ => none, fun _ => none⟩

/-- C7 witness: the open-failure stream at a concrete corrupt document. -/
theorem C7_open_failure_witness :
    convert engOpenFailW reqW =
      ⟨[Act.emit (Event.Failed "cannot open broken document")], [], []⟩
    ∧ eventsOf (convert engOpenFailW reqW) =
        [Event.Failed "cannot open broken document"] :=
  C7_open_failure engOpenFailW reqW "cannot open broken document" rfl

/-- C8: every render call of a run is made at the same fixed scale
`dpi / 72`, computed once from the request before the page loop (the model
records the scale each `get_pixmap` call receives). -/
theorem C8_fixed_scale (eng : Engine) (req : Request) (pr : ℕ × ℚ)
    (h : pr ∈ (convert eng req).renders) :
    pr.2 = (req.dpi : ℚ) / 72 := by
  cases hopen : eng.openRes with
  | error e =>
    simp [convert, hopen] at h
  | ok n =>
    simp only [convert, hopen] at h
    exact loopPages_scale eng _ _ _ _ _ pr h

/-- Concrete engine: a one-page document used by the C8 witness. -/
def engC8W : Engine := ⟨Except.ok 1, fun _ => none, fun _ => none⟩

/-- C8 witness: the recorded scale of the concrete first render call is the
request's `dpi / 72`. -/
theorem C8_fixed_scale_witness :
    ((1 : ℕ), ((reqW.dpi : ℚ)) / 72) ∈ (convert engC8W reqW).renders
    ∧ ((1 : ℕ), ((reqW.dpi : ℚ)) / 72).2 = ((reqW.dpi : ℚ)) / 72 := by
  have hm : ((1 : ℕ), ((reqW.dpi : ℚ)) / 72) ∈ (convert engC8W reqW).renders := by
    have hr : (convert engC8W reqW).renders = [((1 : ℕ), ((reqW.dpi : ℚ)) / 72)] := rfl
    rw [hr]
    exact List.mem_cons_self _ _
  exact ⟨hm, C8_fixed_scale engC8W reqW _ hm⟩

/-- C2: when every page before `k` succeeds and page `k` fails to render or
to save (`1 ≤ k ≤ n`), the run emits `Started n`, then exactly the `k - 1`
`PageDone` events for indices `1..k-1`, then the single terminal `Failed`
carrying the page-`k` exception message, and nothing after it; the files
written for the pages before `k` are exactly the ones that remain (nothing
rolls them back). -/
theorem C2_failure_event_stream (eng : Engine) (req : Request) (n k : ℕ)
    (hopen : eng.openRes = Except.ok n)
    (hk1 : 1 ≤ k) (hkn : k ≤ n)
    (hok : ∀ i, 1 ≤ i → i < k → eng.renderErr i = none ∧ eng.saveErr i = none)
    (hfail : (eng.renderErr k).isSome ∨ (eng.saveErr k).isSome) :
    eventsOf (convert eng req) =
      Event.Started n
        :: (idxList (k - 1)).map (fun i => Event.PageDone i i (producedPath req i))
        ++ [Event.Failed (pageFailMsg eng k)]
    ∧ (convert eng req).files =
        (idxList (k - 1)).map (fun i => producedPath req i) := by
  obtain ⟨tail, ht⟩ := idxList_split k n hk1 hkn
  have hl : ∀ i ∈ idxList (k - 1), eng.renderErr i = none ∧ eng.saveErr i = none := by
    intro i hi
    have hm := (mem_idxList i (k - 1)).mp hi
    exact hok i hm.1 (by omega)
  constructor
  · simp only [convert, hopen]
    rw [ht, loopPages_fail eng _ _ _ _ _ _ _ hl hfail]
    simp [eventsOf, emittedEvents, emittedEvents_append, emittedEvents_map_emit,
      producedPath, fileExt_eq_fmtExt]
  · simp only [convert, hopen]
    rw [ht, loopPages_fail eng _ _ _ _ _ _ _ hl hfail]
    simp [producedPath, fileExt_eq_fmtExt]

/-- Concrete engine: a three-page document whose second page fails to save
(for instance the disk is full). -/
def engSaveFailW : Engine :=
  ⟨Except.ok 3, fun _ => none, fun i => if i = 2 then some "disk full" else none⟩

/-- C2 witness: the failure stream at a concrete three-page document whose
second page fails to save. -/
theorem C2_failure_event_stream_witness :
    eventsOf (convert engSaveFailW reqW) =
      [Event.Started 3, Event.PageDone 1 1 "out/deck_page0001.png",
       Event.Failed "disk full"]
    ∧ (convert engSaveFailW reqW).files = ["out/deck_page0001.png"] := by
  have h := C2_failure_event_stream engSaveFailW reqW 3 2 rfl (by omega) (by omega)
    (fun i h1 h2 => ⟨rfl, by simp [engSaveFailW]; omega⟩)
    (Or.inr (by decide))
  rw [h.1, h.2]
  exact ⟨by decide, by decide⟩

/-- C5: every `PageDone` event any run emits carries exactly the path
`outputDir/baseName_pageNNNN.ext`, where `baseName` is the source file's base
name without its extension, `NNNN` is the 1-based page index zero-padded to 4
digits (exactly 4 for any index up to 9999), and the extension is `png` for
`PNG` and `jpg` for `JPEG`; the name is the deterministic function `outFile`
of the base name, the index and the format alone. -/
theorem C5_output_file_name (eng : Engine) (req : Request) (i t : ℕ) (p : String)
    (h : Event.PageDone i t p ∈ eventsOf (convert eng req)) :
    p = pathJoin req.outputDir
        (pySplitextRoot (pyBasename req.pdfPath) ++ "_page" ++ pad4 i ++ "."
          ++ fmtExt req.fmt)
    ∧ fmtExt Fmt.PNG = "png" ∧ fmtExt Fmt.JPEG = "jpg"
    ∧ 4 ≤ (pad4 i).length ∧ (i ≤ 9999 → (pad4 i).length = 4) := by
  refine ⟨?_, rfl, rfl, pad4_min_length i, pad4_exact_length i⟩
  cases hopen : eng.openRes with
  | error e =>
    rw [convert, hopen] at h
    simp [eventsOf, emittedEvents] at h
  | ok n =>
    simp only [convert, hopen, eventsOf] at h
    rw [List.cons_append, emittedEvents_cons_emit] at h
    rcases List.mem_cons.mp h with h1 | h2
    · exact absurd h1 (by simp)
    · rw [emittedEvents_append] at h2
      rcases List.mem_append.mp h2 with h3 | h4
      · have hm := mem_of_mem_emittedEvents _ _ h3
        have hp := loopPages_pageDone eng _ _ _ _ _ i t p hm
        rw [hp.2, outFile, fileExt_eq_fmtExt]
      · rcases hm : (loopPages eng req.outputDir
            (pySplitextRoot (pyBasename req.pdfPath))
            (if fmtLower req.fmt = "jpeg" then "jpg" else "png")
            ((req.dpi : ℚ) / 72) (idxList n)).2.2.2 with _ | e
        · rw [hm] at h4
          simp [emittedEvents] at h4
        · rw [hm] at h4
          simp [emittedEvents] at h4

/-- C5 witness: the second page of a concrete JPEG run is written to
`imgs/report_page0002.jpg`. -/
theorem C5_output_file_name_witness :
    "imgs/report_page0002.jpg" =
      pathJoin "imgs" (pySplitextRoot (pyBasename "in/report.pdf") ++ "_page"
        ++ pad4 2 ++ "." ++ fmtExt Fmt.JPEG)
    ∧ fmtExt Fmt.PNG = "png" ∧ fmtExt Fmt.JPEG = "jpg"
    ∧ 4 ≤ (pad4 2).length ∧ (2 ≤ 9999 → (pad4 2).length = 4) :=
  C5_output_file_name (⟨Except.ok 2, fun _ => none, fun _ => none⟩ : Engine)
    (⟨"in/report.pdf", "imgs", 300, Fmt.JPEG⟩ : Request) 2 2
    "imgs/report_page0002.jpg" (by decide)

/-- C6: validation rejects an empty source path and a nonexistent source path
with the source-error dialog, and an empty output path with the distinct
output-error dialog, each before any other effect; with a valid source, a
nonempty output path and no task running, the start succeeds and creates the
output directory together with every missing ancestor. -/
theorem C6_validation (st : AppState) (fs : FS) :
    (pyStrip st.pdfPath = "" →
      startConversion st fs = (st, fs, [StartEffect.showError srcErrMsg]))
    ∧ (pyStrip st.pdfPath ∉ fs.regFiles →
      startConversion st fs = (st, fs, [StartEffect.showError srcErrMsg]))
    ∧ (pyStrip st.pdfPath ≠ "" →
        pyStrip st.pdfPath ∈ fs.regFiles →
        pyStrip st.outputDir = "" →
      startConversion st fs = (st, fs, [StartEffect.showError outErrMsg])
        ∧ srcErrMsg ≠ outErrMsg)
    ∧ (pyStrip st.pdfPath ≠ "" →
        pyStrip st.pdfPath ∈ fs.regFiles →
        pyStrip st.outputDir ≠ "" → st.isRunning = false →
      (startConversion st fs).2.1 = makedirs fs (pyStrip st.outputDir)
        ∧ ∀ d ∈ ancestorDirs (pyStrip st.outputDir),
            d ∈ (startConversion st fs).2.1.dirs) := by
  refine ⟨?_, ?_, ?_, ?_⟩
  · intro h
    simp [startConversion, h]
  · intro h
    simp [startConversion, h]
  · intro h1 h2 h3
    exact ⟨by simp [startConversion, h1, h2, h3], by decide⟩
  · intro h1 h2 h3 h4
    have hres : (startConversion st fs).2.1 = makedirs fs (pyStrip st.outputDir) := by
      simp [startConversion, h1, h2, h3, h4]
    refine ⟨hres, ?_⟩
    intro d hd
    rw [hres]
    simp only [makedirs, List.mem_append]
    exact Or.inr hd

/-- Concrete idle widget state with a valid source and a two-level output
directory that does not exist yet. -/
def stIdleW : AppState := ⟨" docs/deck.pdf ", "out/imgs", 200, Fmt.PNG, false, true⟩

/-- Concrete file system: the source file exists, no directory does. -/
def fsW : FS := ⟨["docs/deck.pdf"], []⟩

/-- C6 witness: each branch of the validation at concrete inputs — empty
source, nonexistent source, empty output, and a successful start creating
`out` and `out/imgs`. -/
theorem C6_validation_witness :
    (startConversion (⟨"", "out", 200, Fmt.PNG, false, true⟩ : AppState) fsW =
      (⟨"", "out", 200, Fmt.PNG, false, true⟩, fsW, [StartEffect.showError srcErrMsg]))
    ∧ (startConversion (⟨"gone.pdf", "out", 200, Fmt.PNG, false, true⟩ : AppState) fsW =
      (⟨"gone.pdf", "out", 200, Fmt.PNG, false, true⟩, fsW, [StartEffect.showError srcErrMsg]))
    ∧ (startConversion (⟨"docs/deck.pdf", "  ", 200, Fmt.PNG, false, true⟩ : AppState) fsW =
      (⟨"docs/deck.pdf", "  ", 200, Fmt.PNG, false, true⟩, fsW, [StartEffect.showError outErrMsg])
        ∧ srcErrMsg ≠ outErrMsg)
    ∧ ((startConversion stIdleW fsW).2.1 = makedirs fsW "out/imgs"
        ∧ "out" ∈ (startConversion stIdleW fsW).2.1.dirs
        ∧ "out/imgs" ∈ (startConversion stIdleW fsW).2.1.dirs) := by
  have h1 := (C6_validation (⟨"", "out", 200, Fmt.PNG, false, true⟩ : AppState) fsW).1
    (by decide)
  have h2 := (C6_validation (⟨"gone.pdf", "out", 200, Fmt.PNG, false, true⟩ : AppState) fsW).2.1
    (by decide)
  have h3 := (C6_validation (⟨"docs/deck.pdf", "  ", 200, Fmt.PNG, false, true⟩ : AppState) fsW).2.2.1
    (by decide) (by decide) (by decide)
  have h4 := (C6_validation stIdleW fsW).2.2.2
    (by decide) (by decide) (by decide) (by decide)
  refine ⟨h1, h2, h3, ?_⟩
  have hm : pyStrip stIdleW.outputDir = "out/imgs" := by decide
  refine ⟨by rw [(h4.1 : _ = makedirs fsW (pyStrip stIdleW.outputDir)), hm], ?_, ?_⟩
  · exact h4.2 "out" (by rw [hm]; decide)
  · exact h4.2 "out/imgs" (by rw [hm]; decide)

/-- C10: when the running flag is set and the source and output inputs are
valid (so the validation checks, which run first, pass), `_start_conversion`
returns leaving the widget state untouched (flag, button, entries), the file
system untouched (no directory created) and performing no effect at all: no
error dialog, no event, no worker thread. -/
theorem C10_running_start_is_noop (st : AppState) (fs : FS)
    (hrun : st.isRunning = true)
    (hpdf : pyStrip st.pdfPath ≠ "")
    (hfile : pyStrip st.pdfPath ∈ fs.regFiles)
    (hout : pyStrip st.outputDir ≠ "") :
    (startConversion st fs).1 = st
    ∧ (startConversion st fs).2.1 = fs
    ∧ (startConversion st fs).2.2 = [] := by
  simp [startConversion, hpdf, hfile, hout, hrun]

/-- Concrete widget state with the running flag set and valid inputs. -/
def stBusyW : AppState := ⟨"docs/deck.pdf", "out", 200, Fmt.PNG, true, false⟩

/-- C10 witness: the no-op at a concrete running state. -/
theorem C10_running_start_is_noop_witness :
    (startConversion stBusyW fsW).1 = stBusyW
    ∧ (startConversion stBusyW fsW).2.1 = fsW
    ∧ (startConversion stBusyW fsW).2.2 = [] :=
  C10_running_start_is_noop stBusyW fsW rfl (by decide) (by decide) (by decide)

/-- Concrete running state with valid inputs, used to refute C3 as stated. -/
def stBusyC3 : AppState := ⟨"in/slides.pdf", "album", 150, Fmt.JPEG, true, false⟩

/-- Concrete file system for the C3 counterexample. -/
def fsC3 : FS := ⟨["in/slides.pdf"], ["album"]⟩

/-- C3 counterexample: the claim says a `start` issued while a task is active
fails with an `AlreadyRunning` error.  At this concrete running state with
valid inputs `_start_conversion` returns with an empty effect list — no error
dialog (nor any other signal) is produced, so the call does not fail with any
error: it is a silent no-op (`if self.is_running: return`, lines 126-127). -/
theorem C3_counterexample :
    startConversion stBusyC3 fsC3 = (stBusyC3, fsC3, []) := by decide

/-- C3 as amended: calling start while a task is active for the owner returns
immediately and synchronously, before any concurrent work begins, as a silent
no-op — no error is signalled, no worker is spawned, and neither the widget
state nor the file system changes, so the in-flight task's event stream is
unaffected. -/
theorem C3_already_running_silent_return (st : AppState) (fs : FS)
    (hrun : st.isRunning = true)
    (hpdf : pyStrip st.pdfPath ≠ "")
    (hfile : pyStrip st.pdfPath ∈ fs.regFiles)
    (hout : pyStrip st.outputDir ≠ "") :
    startConversion st fs = (st, fs, []) := by
  simp [startConversion, hpdf, hfile, hout, hrun]

/-- C3 witness: the silent return at a concrete running state. -/
theorem C3_already_running_silent_return_witness :
    startConversion stBusyW ⟨["docs/deck.pdf"], ["out"]⟩ =
      (stBusyW, ⟨["docs/deck.pdf"], ["out"]⟩, []) :=
  C3_already_running_silent_return stBusyW ⟨["docs/deck.pdf"], ["out"]⟩
    rfl (by decide) (by decide) (by decide)

/-- Concrete engine whose single page fails to render, and a request for it,
used to refute C4 as stated. -/
def engC4 : Engine :=
  ⟨Except.ok 1, fun _ => some "pixmap allocation failed", fun _ => none⟩

/-- Concrete request for the C4 counterexample. -/
def reqC4 : Request := ⟨"in/report.pdf", "imgs", 150, Fmt.JPEG⟩

/-- C4 counterexample: the claim says the document handle is closed on every
exit of the task.  On this concrete run the first page fails to render, the
terminal `Failed` event is emitted, and `doc.close()` is never executed: the
`try` block (lines 140-161) reaches `doc.close()` only on the success path
and the `except` handler (lines 163-164) does not close the handle. -/
theorem C4_counterexample :
    (convert engC4 reqC4).docClosed = false
    ∧ eventsOf (convert engC4 reqC4) =
        [Event.Started 1, Event.Failed "pixmap allocation failed"] := by decide

/-- C4 as amended: the document handle is closed on the successful path only,
after the last page and immediately before the terminal `Finished` event is
scheduled; on a per-page failure path the handle is not closed (and on an
open failure no handle was ever acquired). -/
theorem C4_close_on_success_only (eng : Engine) (req : Request) (n : ℕ)
    (hopen : eng.openRes = Except.ok n) :
    ((∀ i, 1 ≤ i → i ≤ n → eng.renderErr i = none ∧ eng.saveErr i = none) →
      (convert eng req).trace =
        Act.emit (Event.Started n)
          :: (idxList n).map (fun i => Act.emit (Event.PageDone i i (producedPath req i)))
          ++ [Act.close, Act.emit (Event.Finished n req.outputDir)])
    ∧ (∀ k, 1 ≤ k → k ≤ n →
        (∀ i, 1 ≤ i → i < k → eng.renderErr i = none ∧ eng.saveErr i = none) →
        ((eng.renderErr k).isSome ∨ (eng.saveErr k).isSome) →
        (convert eng req).docClosed = false) := by
  constructor
  · intro hok
    have hl : ∀ i ∈ idxList n, eng.renderErr i = none ∧ eng.saveErr i = none := by
      intro i hi
      have hm := (mem_idxList i n).mp hi
      exact hok i hm.1 hm.2
    simp only [convert, hopen]
    rw [loopPages_ok eng _ _ _ _ _ hl]
    simp [producedPath, fileExt_eq_fmtExt]
  · intro k hk1 hkn hok hfail
    obtain ⟨tail, ht⟩ := idxList_split k n hk1 hkn
    have hl : ∀ i ∈ idxList (k - 1), eng.renderErr i = none ∧ eng.saveErr i = none := by
      intro i hi
      have hm := (mem_idxList i (k - 1)).mp hi
      exact hok i hm.1 (by omega)
    simp only [convert, hopen, RunState.docClosed]
    rw [ht, loopPages_fail eng _ _ _ _ _ _ _ hl hfail]
    simp

/-- C4 amended witness: on a concrete all-success run the trace ends with the
close followed by `Finished`, and on a concrete run whose page 1 fails the
document stays open. -/
theorem C4_close_on_success_only_witness :
    ((convert engOkW reqW).trace =
      Act.emit (Event.Started 2)
        :: (idxList 2).map (fun i => Act.emit (Event.PageDone i i (producedPath reqW i)))
        ++ [Act.close, Act.emit (Event.Finished 2 "out")])
    ∧ (convert engC4 reqC4).docClosed = false :=
  ⟨(C4_close_on_success_only engOkW reqW 2 rfl).1 (fun i h1 h2 => ⟨rfl, rfl⟩),
   (C4_close_on_success_only engC4 reqC4 1 rfl).2 1 (by omega) (by omega)
     (fun i h1 h2 => by omega) (Or.inl (by decide))⟩
